import Mathlib

/-! Verification of the village-catalog webhook fulfillment service.

The service (a single Python source file) is shallowly embedded below.
Strings are modelled as `List Char`; values that may be absent (Python
`None` / missing dictionary keys) are modelled as `Option`.  Python
`str.strip()` is modelled over the ASCII whitespace characters, and
`str.lower()` over ASCII letters, which covers the character set the
service actually manipulates. -/

namespace Village

/-- Strings are modelled as lists of characters. -/
abbrev Str : Type := List Char

/-- Convert a Lean string literal into the `List Char` model. -/
def S (s : String) : Str := s.toList

/-- ASCII whitespace, the characters stripped by Python `str.strip()`. -/
def isPySpace (c : Char) : Bool :=
  c == ' ' || c == '\t' || c == '\n' || c == '\r' || c == '\x0B' || c == '\x0C'

/-- Python `s.strip()`: drop whitespace from both ends of the string. -/
def pyStrip (l : Str) : Str :=
  ((l.dropWhile isPySpace).reverse.dropWhile isPySpace).reverse

/-- Python `s.strip(chars)`: drop characters belonging to the set `cs` from both ends. -/
def pyStripChars (cs : List Char) (l : Str) : Str :=
  ((l.dropWhile (fun c => cs.contains c)).reverse.dropWhile (fun c => cs.contains c)).reverse

/-- Upper-case to lower-case table for ASCII letters. -/
def ucPairs : List (Char × Char) :=
  [('A', 'a'), ('B', 'b'), ('C', 'c'), ('D', 'd'), ('E', 'e'), ('F', 'f'),
   ('G', 'g'), ('H', 'h'), ('I', 'i'), ('J', 'j'), ('K', 'k'), ('L', 'l'),
   ('M', 'm'), ('N', 'n'), ('O', 'o'), ('P', 'p'), ('Q', 'q'), ('R', 'r'),
   ('S', 's'), ('T', 't'), ('U', 'u'), ('V', 'v'), ('W', 'w'), ('X', 'x'),
   ('Y', 'y'), ('Z', 'z')]

/-- ASCII lower-casing of a single character (model of Python `str.lower`). -/
def lowerChar (c : Char) : Char :=
  match ucPairs.find? (fun p => p.1 == c) with
  | some pr => pr.2
  | none => c

/-- Model of `normalize` from the source: `(s or "").strip().lower().replace(" ", "").replace("_", "")`.
The `(s or "")` guard is handled at call sites by `Option.getD []`. -/
def normalize (s : Str) : Str :=
  (((pyStrip s).map lowerChar).filter (fun c => !(c == ' '))).filter (fun c => !(c == '_'))

/-- Python `s.split(sep)` for a one-character separator; `"".split(";") = [""]`. -/
def splitOnC (sep : Char) : Str → List Str
  | [] => [[]]
  | c :: cs =>
    if c = sep then [] :: splitOnC sep cs
    else
      match splitOnC sep cs with
      | [] => [[c]]
      | s :: rest => (c :: s) :: rest

/-- Python `sep.join(items)`. -/
def pyJoin (sep : Str) : List Str → Str
  | [] => []
  | [x] => x
  | x :: y :: rest => x ++ sep ++ pyJoin sep (y :: rest)

/-- The default placeholder used by `pick`: "Information not available.". -/
def defaultInfo : Str := S "Information not available."

/-- Model of `bullets` from the source: split on `;`, strip each piece, drop
empties; if any remain, join them as bullet lines, otherwise return the text
unchanged. -/
def bullets (text : Str) : Str :=
  let items := ((splitOnC ';' text).map pyStrip).filter (fun s => !s.isEmpty)
  if items.isEmpty then text else pyJoin (S "\n") (items.map (fun x => S "• " ++ x))

/-- The sentinel returned by the activity filter when nothing matches. -/
def notFoundActivity : Str := S "Requested activity not found for this place."

/-- Python substring containment `q in s`. -/
def pyIn (q : Str) : Str → Bool
  | [] => q.isEmpty
  | c :: cs => q.isPrefixOf (c :: cs) || pyIn q cs

/-- Model of `filter_activity_line` from the source.  Note the query is
stripped and lower-cased before the substring test (`q = activity_query.strip().lower()`). -/
def filter_activity_line (activities_text activity_query : Str) : Str :=
  if activity_query.isEmpty then activities_text
  else
    let lines := ((splitOnC ';' activities_text).map pyStrip).filter (fun s => !s.isEmpty)
    let q := (pyStrip activity_query).map lowerChar
    let hits := lines.filter (fun ln => pyIn q (ln.map lowerChar))
    if hits.isEmpty then notFoundActivity else pyJoin (S "; ") hits

/-- One CSV row, as the dictionary the loader builds: each logical field of
`FIELD_MAP` maps to the cell text, or `none` when the column is missing. -/
structure Row where
  name : Option Str
  state : Option Str
  district : Option Str
  about : Option Str
  attractions : Option Str
  activities : Option Str
  booking : Option Str
  handicrafts : Option Str
  stays : Option Str
  food : Option Str
  transport : Option Str
  unique : Option Str
  official : Option Str
deriving DecidableEq

/-- Model of `pick(row, field_key, default)`: fetch the field, strip it,
fall back to the default when empty or missing. -/
def pick (row : Row) (f : Row → Option Str) (d : Str) : Str :=
  let v := pyStrip ((f row).getD [])
  if v.isEmpty then d else v

/-- The catalog: an insertion-ordered association list modelling the Python
dict built by `load_catalog` (keys are normalized names). -/
abbrev Catalog := List (Str × Row)

/-- Dictionary lookup `CAT[k]` / `k in CAT`. -/
def lookupC (cat : Catalog) (k : Str) : Option Row :=
  match cat.find? (fun pr => pr.1 == k) with
  | some pr => some pr.2
  | none => none

/-- Python dict assignment `data[key] = row`: replace in place when the key is
present (keeping its position), append otherwise. -/
def insertOrdered (cat : Catalog) (k : Str) (r : Row) : Catalog :=
  if cat.any (fun pr => pr.1 == k) then
    cat.map (fun pr => if pr.1 == k then (k, r) else pr)
  else cat ++ [(k, r)]

/-- The key a data row is stored under: `normalize(row.get("Village Name"))`. -/
def rowKey (r : Row) : Str := normalize (r.name.getD [])

/-- One iteration of the `load_catalog` loop: skip the row when its key is
empty, otherwise store it under its key. -/
def loadStep (acc : Catalog) (r : Row) : Catalog :=
  if (rowKey r).isEmpty then acc else insertOrdered acc (rowKey r) r

/-- Model of `load_catalog`: one pass over the data rows, inserting each row
under its normalized name and skipping rows whose key is empty. -/
def load_catalog (rows : List Row) : Catalog :=
  rows.foldl loadStep []

/-- Session parameters; each entity may arrive under a primary name or a
fallback `cx_entities_*` name (absent keys are `none`). -/
structure Params where
  place : Option Str
  cx_entities_place : Option Str
  activity : Option Str
  cx_entities_activity : Option Str
  state : Option Str
  cx_entities_state : Option Str
  district : Option Str
  cx_entities_district : Option Str
deriving DecidableEq

/-- Parameters object with every entity absent. -/
def emptyParams : Params := ⟨none, none, none, none, none, none, none, none⟩

/-- Model of `params.get(a) or params.get(b) or ""`: first truthy (non-empty)
value wins, defaulting to the empty string. -/
def firstNonEmpty (a b : Option Str) : Str :=
  if !(a.getD []).isEmpty then a.getD []
  else if !(b.getD []).isEmpty then b.getD []
  else []

/-- A webhook response: HTTP status plus the single text message carried in
the `fulfillmentResponse` envelope. -/
structure Resp where
  status : Nat
  text : Str
deriving DecidableEq

/-- Model of `verify_secret`: disabled when no token is configured, otherwise
the inbound header value (empty when the header is missing) must equal the
token exactly. -/
def verify_secret (token : Str) (headerVal : Option Str) : Bool :=
  if token.isEmpty then true else headerVal.getD [] == token

/-- The standard not-found message of the by-place handlers. -/
def notFoundText : Str :=
  S "I couldn" ++ ['\x27'] ++ S "t find that place. Try another village or spelling."

/-- The not-found response shared by all by-place handlers. -/
def notFoundResp : Resp := ⟨200, notFoundText⟩

/-- Required-lookup step shared by the by-place handlers: normalize the raw
place; fail when the key is empty or absent from the catalog. -/
def byPlaceRequired (cat : Catalog) (place_raw : Str) : Option Row :=
  if (normalize place_raw).isEmpty then none else lookupC cat (normalize place_raw)

/-- Run a by-place handler after the required lookup, or return the standard
not-found response. -/
def withPlace (found : Option Row) (h : Row → Resp) : Resp :=
  match found with
  | none => notFoundResp
  | some row => h row

/-- Model of the `getPlaceDetails` branch, including the (ineffective)
`.strip(", ")` on the header line. -/
def placeDetailsResp (row : Row) (place_raw : Str) : Resp :=
  let name := pick row (fun r => r.name) place_raw
  let st := pick row (fun r => r.state) []
  let di := pick row (fun r => r.district) []
  let ab := pick row (fun r => r.about) defaultInfo
  let un := pick row (fun r => r.unique) []
  let header := pyStripChars [',', ' '] (name ++ S " (" ++ di ++ S ", " ++ st ++ S ")")
  let base := header ++ S "\n\n" ++ ab
  ⟨200, if un ≠ [] ∧ un ≠ defaultInfo then base ++ S "\n\nUnique:\n" ++ bullets un else base⟩

/-- Model of the `getAttractions` branch. -/
def attractionsResp (row : Row) (place_raw : Str) : Resp :=
  ⟨200, S "Top attractions in " ++ pick row (fun r => r.name) place_raw ++ S ":\n" ++
    bullets (pick row (fun r => r.attractions) defaultInfo)⟩

/-- Model of the `getActivities` branch: the activities field runs through the
activity filter and the result is bulleted. -/
def activitiesResp (row : Row) (place_raw activity_raw : Str) : Resp :=
  ⟨200, S "Activities in " ++ pick row (fun r => r.name) place_raw ++ S ":\n" ++
    bullets (filter_activity_line (pick row (fun r => r.activities) defaultInfo) activity_raw)⟩

/-- Model of the `getFood` branch. -/
def foodResp (row : Row) (place_raw : Str) : Resp :=
  ⟨200, S "Food in " ++ pick row (fun r => r.name) place_raw ++ S ":\n" ++
    bullets (pick row (fun r => r.food) defaultInfo)⟩

/-- Model of the `getTransport` branch. -/
def transportResp (row : Row) (place_raw : Str) : Resp :=
  ⟨200, S "How to reach " ++ pick row (fun r => r.name) place_raw ++ S ":\n" ++
    bullets (pick row (fun r => r.transport) defaultInfo)⟩

/-- Model of the `getStays` branch. -/
def staysResp (row : Row) (place_raw : Str) : Resp :=
  ⟨200, S "Places to stay in/near " ++ pick row (fun r => r.name) place_raw ++ S ":\n" ++
    bullets (pick row (fun r => r.stays) defaultInfo)⟩

/-- Model of the `getHandicrafts` branch. -/
def handicraftsResp (row : Row) (place_raw : Str) : Resp :=
  ⟨200, S "Local crafts in " ++ pick row (fun r => r.name) place_raw ++ S ":\n" ++
    bullets (pick row (fun r => r.handicrafts) defaultInfo)⟩

/-- Model of the `getOfficial` branch (no bulleting). -/
def officialResp (row : Row) (place_raw : Str) : Resp :=
  ⟨200, S "Official info for " ++ pick row (fun r => r.name) place_raw ++ S ":\n" ++
    pick row (fun r => r.official) defaultInfo⟩

/-- Model of `list_places_by`: the name cells of all catalog records whose
normalized field equals the normalized query, in catalog iteration order. -/
def list_places_by (cat : Catalog) (f : Row → Option Str) (v : Str) : List (Option Str) :=
  ((cat.map Prod.snd).filter (fun r => normalize ((f r).getD []) == normalize v)).map
    (fun r => r.name)

/-- Python string interpolation of a possibly missing cell (`f"• {p}"` prints
`None` for a missing value). -/
def renderOpt (o : Option Str) : Str :=
  match o with
  | some s => s
  | none => S "None"

/-- Model of the `getRecommendations` branch: district takes precedence over
state; at most the first 10 candidates are rendered as bullet lines. -/
def recommendations (cat : Catalog) (district_raw state_raw : Str) : Resp :=
  if !district_raw.isEmpty then
    if (list_places_by cat (fun r => r.district) district_raw).isEmpty then
      ⟨200, S "No places found for " ++ district_raw ++ S "."⟩
    else ⟨200, S "Recommended places in " ++ district_raw ++ S ":\n" ++
      pyJoin (S "\n") (((list_places_by cat (fun r => r.district) district_raw).take 10).map
        (fun p => S "• " ++ renderOpt p))⟩
  else if !state_raw.isEmpty then
    if (list_places_by cat (fun r => r.state) state_raw).isEmpty then
      ⟨200, S "No places found for " ++ state_raw ++ S "."⟩
    else ⟨200, S "Recommended places in " ++ state_raw ++ S ":\n" ++
      pyJoin (S "\n") (((list_places_by cat (fun r => r.state) state_raw).take 10).map
        (fun p => S "• " ++ renderOpt p))⟩
  else ⟨200, S "Tell me a state or district to recommend places."⟩

/-- Tag dispatch of the `fulfillment` endpoint (after the secret check). -/
def dispatch (cat : Catalog) (tag : Str) (p : Params) : Resp :=
  let place_raw := firstNonEmpty p.place p.cx_entities_place
  let activity_raw := firstNonEmpty p.activity p.cx_entities_activity
  let state_raw := firstNonEmpty p.state p.cx_entities_state
  let district_raw := firstNonEmpty p.district p.cx_entities_district
  let found := byPlaceRequired cat place_raw
  if tag = S "getPlaceDetails" then withPlace found (fun row => placeDetailsResp row place_raw)
  else if tag = S "getAttractions" then withPlace found (fun row => attractionsResp row place_raw)
  else if tag = S "getActivities" then
    withPlace found (fun row => activitiesResp row place_raw activity_raw)
  else if tag = S "getFood" then withPlace found (fun row => foodResp row place_raw)
  else if tag = S "getTransport" then withPlace found (fun row => transportResp row place_raw)
  else if tag = S "getStays" then withPlace found (fun row => staysResp row place_raw)
  else if tag = S "getHandicrafts" then withPlace found (fun row => handicraftsResp row place_raw)
  else if tag = S "getOfficial" then withPlace found (fun row => officialResp row place_raw)
  else if tag = S "getRecommendations" then recommendations cat district_raw state_raw
  else ⟨200, S "Unhandled webhook tag."⟩

/-- Model of the whole `/fulfillment` endpoint: secret gate, then dispatch. -/
def fulfillment (cat : Catalog) (token : Str) (headerVal : Option Str) (tag : Str)
    (p : Params) : Resp :=
  if verify_secret token headerVal then dispatch cat tag p else ⟨401, S "Unauthorized"⟩

/-- The eight tags that share the required place lookup. -/
def byPlaceTags : List Str :=
  [S "getPlaceDetails", S "getAttractions", S "getActivities", S "getFood",
   S "getTransport", S "getStays", S "getHandicrafts", S "getOfficial"]

/-- A row of the catalog used for concrete evaluations: name "Alpha Village",
blank state, no district column, an about text, and nothing else. -/
def rowAlpha : Row :=
  ⟨some (S "Alpha Village"), some (S ""), none, some (S "A nice place."),
   none, none, none, none, none, none, none, none, none⟩

/-- Request parameters naming the place "Alpha Village" only. -/
def pAlpha : Params := ⟨some (S "Alpha Village"), none, none, none, none, none, none, none⟩

/-- The lower-case ASCII letters, the possible outputs of `lowerChar` on
upper-case input. -/
def lcLetters : Str := S "abcdefghijklmnopqrstuvwxyz"

/-- A row offering two activities, for concrete activity-filter evaluations. -/
def rowGreen : Row :=
  ⟨some (S "Green Hill"), none, none, none, none, some (S "Fishing; Hiking"),
   none, none, none, none, none, none, none⟩

/-- Request parameters naming "Green Hill" and querying the activity "skiing". -/
def pGreen : Params :=
  ⟨some (S "Green Hill"), none, some (S "skiing"), none, none, none, none, none⟩

/-- Number of lines of a text (split on newline) that start with the bullet
marker. -/
def bulletLineCount (t : Str) : Nat :=
  ((splitOnC '\n' t).filter (fun ln => ln.head? == some '•')).length

/-- A record located in district Kullu, for concrete recommendation runs. -/
def mkKulluRow (nm : String) : Row :=
  ⟨some (S nm), some (S "Himachal Pradesh"), some (S "Kullu"), none, none, none,
   none, none, none, none, none, none, none⟩

/-- A catalog with twelve records in district Kullu. -/
def cat12 : Catalog :=
  [(S "v01", mkKulluRow "V01"), (S "v02", mkKulluRow "V02"), (S "v03", mkKulluRow "V03"),
   (S "v04", mkKulluRow "V04"), (S "v05", mkKulluRow "V05"), (S "v06", mkKulluRow "V06"),
   (S "v07", mkKulluRow "V07"), (S "v08", mkKulluRow "V08"), (S "v09", mkKulluRow "V09"),
   (S "v10", mkKulluRow "V10"), (S "v11", mkKulluRow "V11"), (S "v12", mkKulluRow "V12")]

/-- Request parameters asking for recommendations in district "Kullu". -/
def p12 : Params := ⟨none, none, none, none, none, none, some (S "Kullu"), none⟩

/-- The Bulleter as worded by the specification: split on `;`, trim each
segment, discard the empty ones, join the survivors as bullet lines, and
return the input unchanged when no segment survives. -/
def bulletsSpec (text : Str) : Str :=
  let surviving := (splitOnC ';' text).filterMap
    (fun seg => if pyStrip seg = [] then none else some (pyStrip seg))
  if surviving = [] then text
  else pyJoin (S "\n") (surviving.map (fun s => S "• " ++ s))

/-- The Activity Filter as the claim words it: the raw query is only
lower-cased (not trimmed) before the substring test. -/
def filterActivityLineClaim (t q : Str) : Str :=
  if q.isEmpty then t
  else
    let lines := ((splitOnC ';' t).map pyStrip).filter (fun s => !s.isEmpty)
    let lq := q.map lowerChar
    let hits := lines.filter (fun ln => pyIn lq (ln.map lowerChar))
    if hits.isEmpty then notFoundActivity else pyJoin (S "; ") hits

/-- The Activity Filter as amended: the query is trimmed of surrounding
whitespace and then lower-cased before the substring test. -/
def filterActivityLineAmended (t q : Str) : Str :=
  if q.isEmpty then t
  else
    let segs := (splitOnC ';' t).filterMap
      (fun seg => if pyStrip seg = [] then none else some (pyStrip seg))
    let lq := (pyStrip q).map lowerChar
    let hits := segs.filter (fun ln => pyIn lq (ln.map lowerChar))
    if hits.isEmpty then notFoundActivity else pyJoin (S "; ") hits

lemma filterMap_strip (L : List Str) :
    L.filterMap (fun seg => if pyStrip seg = [] then none else some (pyStrip seg))
      = (L.map pyStrip).filter (fun s => !s.isEmpty) := by
  induction L with
  | nil => rfl
  | cons a t ih =>
    by_cases h : pyStrip a = []
    · simp [List.filterMap_cons, List.filter_cons, h, ih]
    · simp [List.filterMap_cons, List.filter_cons, h, List.isEmpty_eq_false.mpr h, ih]

/-- C2: evaluation of `getPlaceDetails` at a record with blank district and
state.  The code emits the header "Alpha Village (, )" — the stray
parentheses and comma are kept, because `.strip(", ")` only strips at the
ends of the header string and the closing parenthesis blocks it; the claimed
omission of blank district/state never happens. -/
theorem getPlaceDetails_blank_header_eval :
    fulfillment [(S "alphavillage", rowAlpha)] [] none (S "getPlaceDetails") pAlpha
      = ⟨200, S "Alpha Village (, )\n\nA nice place."⟩ := by
  decide

example : fulfillment [] [] none (S "doSomethingUnknown") emptyParams
    = ⟨200, S "Unhandled webhook tag."⟩ := by decide

lemma lowerChar_cases (c : Char) : lowerChar c = c ∨ lowerChar c ∈ lcLetters := by
  unfold lowerChar
  cases h : ucPairs.find? (fun p => p.1 == c) with
  | none =>
    left
    rfl
  | some pr =>
    right
    have hall : ∀ p ∈ ucPairs, p.2 ∈ lcLetters := by decide
    exact hall pr (List.mem_of_find?_eq_some h)

lemma lowerChar_idem (c : Char) : lowerChar (lowerChar c) = lowerChar c := by
  rcases lowerChar_cases c with h | h
  · rw [h]
    exact h
  · have hfix : ∀ d ∈ lcLetters, lowerChar d = d := by decide
    exact hfix (lowerChar c) h

lemma dropWhile_all_false {p : Char → Bool} {l : Str} (h : ∀ c ∈ l, p c = false) :
    l.dropWhile p = l := by
  cases l with
  | nil => rfl
  | cons a t => simp [List.dropWhile_cons, h a (by simp)]

lemma pyStrip_no_space {l : Str} (h : ∀ c ∈ l, isPySpace c = false) : pyStrip l = l := by
  unfold pyStrip
  rw [dropWhile_all_false h, dropWhile_all_false (fun c hc => h c (List.mem_reverse.mp hc)),
    List.reverse_reverse]

lemma map_eq_self_of {f : Char → Char} {l : Str} (h : ∀ c ∈ l, f c = c) : l.map f = l := by
  induction l with
  | nil => rfl
  | cons a t ih => simp [h a (by simp), ih (fun c hc => h c (by simp [hc]))]

lemma pyStrip_subset {l : Str} {c : Char} (hc : c ∈ pyStrip l) : c ∈ l := by
  unfold pyStrip at hc
  rw [List.mem_reverse] at hc
  have hc2 := (List.dropWhile_sublist isPySpace).subset hc
  rw [List.mem_reverse] at hc2
  exact (List.dropWhile_sublist isPySpace).subset hc2

lemma mem_normalize {s : Str} {c : Char} (hc : c ∈ normalize s) :
    (c == ' ') = false ∧ (c == '_') = false ∧ ∃ c₀ ∈ s, c = lowerChar c₀ := by
  unfold normalize at hc
  rw [List.mem_filter] at hc
  obtain ⟨hc, hu⟩ := hc
  rw [List.mem_filter] at hc
  obtain ⟨hc, hs⟩ := hc
  rw [List.mem_map] at hc
  obtain ⟨c₀, hc₀, hmap⟩ := hc
  refine ⟨by simpa using hs, by simpa using hu, c₀, pyStrip_subset hc₀, hmap.symm⟩

/-- C8 counterexample: `normalize` is not idempotent.  On "_\tx" the first
pass removes the underscore and exposes a leading tab, which the second
pass strips. -/
theorem normalize_not_idempotent :
    normalize (normalize (S "_\tx")) ≠ normalize (S "_\tx")
      ∧ normalize (S "_\tx") = S "\tx"
      ∧ normalize (normalize (S "_\tx")) = S "x" := by
  decide

/-- C8 amended: `normalize` is idempotent on every string whose whitespace
characters are all plain spaces (removing spaces and underscores can then
never expose new leading or trailing whitespace). -/
theorem normalize_idem_amended (x : Str) (hx : ∀ c ∈ x, isPySpace c = true → c = ' ') :
    normalize (normalize x) = normalize x := by
  set y := normalize x with hy
  have hmem : ∀ c ∈ y,
      isPySpace c = false ∧ lowerChar c = c ∧ (c == ' ') = false ∧ (c == '_') = false := by
    intro c hc
    rw [hy] at hc
    obtain ⟨hsp, hus, c₀, hc₀, hlc⟩ := mem_normalize hc
    have hidem : lowerChar c = c := by rw [hlc, lowerChar_idem]
    have hnospace : isPySpace c = false := by
      rcases lowerChar_cases c₀ with h | h
      · by_contra hps
        have hps : isPySpace c = true := by
          cases hval : isPySpace c
          · exact absurd hval hps
          · rfl
        have : c = ' ' := hx c (by rwa [hlc, h]) (hps)
        rw [this] at hsp
        exact absurd hsp (by decide)
      · have hlet : ∀ d ∈ lcLetters, isPySpace d = false := by decide
        exact hlet c (by rwa [hlc])
    exact ⟨hnospace, hidem, hsp, hus⟩
  have h1 : pyStrip y = y := pyStrip_no_space (fun c hc => (hmem c hc).1)
  have h2 : y.map lowerChar = y := map_eq_self_of (fun c hc => (hmem c hc).2.1)
  have h3 : y.filter (fun c => !(c == ' ')) = y :=
    List.filter_eq_self.mpr (fun c hc => by rw [(hmem c hc).2.2.1]; rfl)
  have h4 : y.filter (fun c => !(c == '_')) = y :=
    List.filter_eq_self.mpr (fun c hc => by rw [(hmem c hc).2.2.2]; rfl)
  show (((pyStrip y).map lowerChar).filter (fun c => !(c == ' '))).filter
      (fun c => !(c == '_')) = y
  rw [h1, h2, h3, h4]

/-- C8 witness: the amended idempotence applied to a concrete name whose only
whitespace characters are spaces. -/
theorem normalize_idem_amended_witness :
    normalize (normalize (S " Green_ Hill ")) = normalize (S " Green_ Hill ") :=
  normalize_idem_amended (S " Green_ Hill ") (by decide)

lemma lookupC_cons (pr : Str × Row) (t : Catalog) (k : Str) :
    lookupC (pr :: t) k = if pr.1 == k then some pr.2 else lookupC t k := by
  unfold lookupC
  rw [List.find?_cons]
  cases h : pr.1 == k <;> simp [h]

lemma lookupC_append (l₁ l₂ : Catalog) (k : Str) :
    lookupC (l₁ ++ l₂) k = (lookupC l₁ k).or (lookupC l₂ k) := by
  induction l₁ with
  | nil => rw [List.nil_append]; rfl
  | cons pr t ih =>
    rw [List.cons_append, lookupC_cons, lookupC_cons]
    cases h : pr.1 == k
    · rw [if_neg (by simp [h]), if_neg (by simp [h]), ih]
    · rw [if_pos (by simp [h]), if_pos (by simp [h])]
      rfl

lemma lookupC_none_of_not_any {cat : Catalog} {k : Str}
    (h : ¬cat.any (fun pr => pr.1 == k) = true) : lookupC cat k = none := by
  unfold lookupC
  cases hf : cat.find? (fun pr => pr.1 == k) with
  | none => rfl
  | some pr =>
    exact absurd (List.any_eq_true.mpr ⟨pr, List.mem_of_find?_eq_some hf, List.find?_some hf⟩) h

lemma lookupC_nil (k : Str) : lookupC [] k = none := rfl

lemma neTrue {b : Bool} (h : b = false) : ¬(b = true) := by
  simp [h]

lemma lookupC_map_replace (cat : Catalog) (k : Str) (r : Row) (kq : Str) (hne : kq ≠ k) :
    lookupC (cat.map (fun pr => if pr.1 == k then (k, r) else pr)) kq = lookupC cat kq := by
  induction cat with
  | nil => rfl
  | cons pr t ih =>
    rw [List.map_cons]
    cases hpk : pr.1 == k with
    | true =>
      rw [if_pos (rfl : (true : Bool) = true), lookupC_cons, lookupC_cons]
      have h1 : (k == kq) = false := beq_eq_false_iff_ne.mpr (fun h => hne h.symm)
      have h2 : (pr.1 == kq) = false := by
        rw [show pr.1 = k by simpa using hpk]
        exact h1
      rw [if_neg (neTrue h1), if_neg (neTrue h2)]
      exact ih
    | false =>
      rw [if_neg Bool.false_ne_true, lookupC_cons, lookupC_cons]
      cases hq : pr.1 == kq with
      | true => simp
      | false => simpa using ih

lemma lookupC_map_replace_eq (cat : Catalog) (k : Str) (r : Row)
    (hin : cat.any (fun pr => pr.1 == k) = true) :
    lookupC (cat.map (fun pr => if pr.1 == k then (k, r) else pr)) k = some r := by
  induction cat with
  | nil => exact absurd hin (by simp)
  | cons pr t ih =>
    rw [List.map_cons]
    cases hpk : pr.1 == k with
    | true =>
      rw [if_pos (rfl : (true : Bool) = true), lookupC_cons, if_pos (beq_self_eq_true k)]
    | false =>
      have hin2 : t.any (fun pr => pr.1 == k) = true := by
        rw [List.any_cons, hpk, Bool.false_or] at hin
        exact hin
      rw [if_neg Bool.false_ne_true, lookupC_cons, if_neg (neTrue hpk)]
      exact ih hin2

lemma lookupC_insertOrdered (cat : Catalog) (k : Str) (r : Row) (kq : Str) :
    lookupC (insertOrdered cat k r) kq = if kq = k then some r else lookupC cat kq := by
  unfold insertOrdered
  by_cases hin : cat.any (fun pr => pr.1 == k) = true
  · rw [if_pos hin]
    by_cases hq : kq = k
    · subst hq
      rw [if_pos rfl, lookupC_map_replace_eq cat kq r hin]
    · rw [if_neg hq, lookupC_map_replace cat k r kq hq]
  · rw [if_neg hin, lookupC_append]
    by_cases hq : kq = k
    · subst hq
      rw [lookupC_none_of_not_any hin, Option.none_or, if_pos rfl,
        lookupC_cons, if_pos (beq_self_eq_true kq)]
    · rw [if_neg hq]
      have hsingle : lookupC [(k, r)] kq = none := by
        rw [lookupC_cons,
          if_neg (neTrue (beq_eq_false_iff_ne.mpr (fun h => hq h.symm))), lookupC_nil]
      rw [hsingle, Option.or_none]

lemma getLast?_cons_or {α : Type} (a : α) (l : List α) :
    (a :: l).getLast? = l.getLast?.or (some a) := by
  have haux : ∀ (b : α) (t : List α), ∃ y, (b :: t).getLast? = some y := by
    intro b t
    induction t generalizing b with
    | nil => exact ⟨b, rfl⟩
    | cons c t ih =>
      rw [List.getLast?_cons_cons]
      exact ih c
  cases l with
  | nil => rfl
  | cons b t =>
    rw [List.getLast?_cons_cons]
    obtain ⟨y, hy⟩ := haux b t
    rw [hy]
    rfl

lemma load_foldl (rows : List Row) : ∀ (acc : Catalog) (k : Str),
    lookupC (rows.foldl loadStep acc) k =
      if k = [] then lookupC acc k
      else ((rows.filter (fun r => rowKey r == k)).getLast?).or (lookupC acc k) := by
  induction rows with
  | nil =>
    intro acc k
    by_cases h : k = [] <;> simp [h, Option.none_or]
  | cons r rs ih =>
    intro acc k
    rw [List.foldl_cons, ih (loadStep acc r) k]
    by_cases hk : k = []
    · rw [if_pos hk, if_pos hk]
      subst hk
      unfold loadStep
      by_cases hr : (rowKey r).isEmpty = true
      · rw [if_pos hr]
      · rw [if_neg hr, lookupC_insertOrdered]
        rw [if_neg (fun heq => hr (by rw [← heq]; rfl))]
    · rw [if_neg hk, if_neg hk, List.filter_cons]
      cases hr : rowKey r == k
      · rw [if_neg Bool.false_ne_true]
        unfold loadStep
        by_cases hre : (rowKey r).isEmpty = true
        · rw [if_pos hre]
        · rw [if_neg hre, lookupC_insertOrdered]
          rw [if_neg (fun heq => by simp [heq] at hr)]
      · rw [if_pos (rfl : (true : Bool) = true), getLast?_cons_or]
        have hkey : rowKey r = k := by simpa using hr
        unfold loadStep
        have hne : (rowKey r).isEmpty ≠ true := by
          rw [hkey]
          simp [List.isEmpty_eq_false.mpr hk]
        rw [if_neg hne, lookupC_insertOrdered, hkey, if_pos rfl, Option.or_assoc]
        rfl

/-- C3: the catalog built by `load_catalog` answers every lookup according to
the rows: the empty key is never present (rows whose name normalizes to empty
are skipped), and a non-empty key maps to the last row of the input whose
normalized name equals that key (insert for every such row, last-write-wins),
`none` when there is no such row. -/
theorem load_catalog_lookup (rows : List Row) (k : Str) :
    lookupC (load_catalog rows) k =
      if k = [] then none else (rows.filter (fun r => rowKey r == k)).getLast? := by
  unfold load_catalog
  rw [load_foldl rows [] k]
  by_cases hk : k = []
  · rw [if_pos hk, if_pos hk]
    rfl
  · rw [if_neg hk, if_neg hk]
    rw [show lookupC [] k = none from rfl, Option.or_none]

lemma fulfill_placeDetails (cat : Catalog) (p : Params) :
    fulfillment cat [] none (S "getPlaceDetails") p
      = withPlace (byPlaceRequired cat (firstNonEmpty p.place p.cx_entities_place))
          (fun row => placeDetailsResp row (firstNonEmpty p.place p.cx_entities_place)) := rfl

lemma fulfill_attractions (cat : Catalog) (p : Params) :
    fulfillment cat [] none (S "getAttractions") p
      = withPlace (byPlaceRequired cat (firstNonEmpty p.place p.cx_entities_place))
          (fun row => attractionsResp row (firstNonEmpty p.place p.cx_entities_place)) := rfl

lemma fulfill_activities (cat : Catalog) (p : Params) :
    fulfillment cat [] none (S "getActivities") p
      = withPlace (byPlaceRequired cat (firstNonEmpty p.place p.cx_entities_place))
          (fun row => activitiesResp row (firstNonEmpty p.place p.cx_entities_place)
            (firstNonEmpty p.activity p.cx_entities_activity)) := rfl

lemma fulfill_food (cat : Catalog) (p : Params) :
    fulfillment cat [] none (S "getFood") p
      = withPlace (byPlaceRequired cat (firstNonEmpty p.place p.cx_entities_place))
          (fun row => foodResp row (firstNonEmpty p.place p.cx_entities_place)) := rfl

lemma fulfill_transport (cat : Catalog) (p : Params) :
    fulfillment cat [] none (S "getTransport") p
      = withPlace (byPlaceRequired cat (firstNonEmpty p.place p.cx_entities_place))
          (fun row => transportResp row (firstNonEmpty p.place p.cx_entities_place)) := rfl

lemma fulfill_stays (cat : Catalog) (p : Params) :
    fulfillment cat [] none (S "getStays") p
      = withPlace (byPlaceRequired cat (firstNonEmpty p.place p.cx_entities_place))
          (fun row => staysResp row (firstNonEmpty p.place p.cx_entities_place)) := rfl

lemma fulfill_handicrafts (cat : Catalog) (p : Params) :
    fulfillment cat [] none (S "getHandicrafts") p
      = withPlace (byPlaceRequired cat (firstNonEmpty p.place p.cx_entities_place))
          (fun row => handicraftsResp row (firstNonEmpty p.place p.cx_entities_place)) := rfl

lemma fulfill_official (cat : Catalog) (p : Params) :
    fulfillment cat [] none (S "getOfficial") p
      = withPlace (byPlaceRequired cat (firstNonEmpty p.place p.cx_entities_place))
          (fun row => officialResp row (firstNonEmpty p.place p.cx_entities_place)) := rfl

lemma fulfill_recommendations (cat : Catalog) (p : Params) :
    fulfillment cat [] none (S "getRecommendations") p
      = recommendations cat (firstNonEmpty p.district p.cx_entities_district)
          (firstNonEmpty p.state p.cx_entities_state) := rfl

lemma byPlaceRequired_none {cat : Catalog} {pr : Str}
    (h : normalize pr = [] ∨ lookupC cat (normalize pr) = none) :
    byPlaceRequired cat pr = none := by
  unfold byPlaceRequired
  rcases h with h | h
  · rw [if_pos (by rw [h]; rfl)]
  · by_cases he : (normalize pr).isEmpty = true
    · rw [if_pos he]
    · rw [if_neg he]
      exact h

/-- C7: each of the eight by-place tags returns the standard not-found
message with HTTP status 200 whenever the place normalizes to the empty
string or its key is absent from the catalog. -/
theorem by_place_not_found (cat : Catalog) (p : Params) (tag : Str)
    (htag : tag ∈ byPlaceTags)
    (h : normalize (firstNonEmpty p.place p.cx_entities_place) = []
        ∨ lookupC cat (normalize (firstNonEmpty p.place p.cx_entities_place)) = none) :
    fulfillment cat [] none tag p = ⟨200, notFoundText⟩ := by
  have hb := byPlaceRequired_none h
  simp only [byPlaceTags, List.mem_cons, List.not_mem_nil, or_false] at htag
  rcases htag with h1 | h1 | h1 | h1 | h1 | h1 | h1 | h1
  · rw [h1, fulfill_placeDetails, hb]
    rfl
  · rw [h1, fulfill_attractions, hb]
    rfl
  · rw [h1, fulfill_activities, hb]
    rfl
  · rw [h1, fulfill_food, hb]
    rfl
  · rw [h1, fulfill_transport, hb]
    rfl
  · rw [h1, fulfill_stays, hb]
    rfl
  · rw [h1, fulfill_handicrafts, hb]
    rfl
  · rw [h1, fulfill_official, hb]
    rfl

/-- C7 witness: `getActivities` for a place absent from an empty catalog
answers with the not-found message and status 200. -/
theorem by_place_not_found_witness :
    fulfillment [] [] none (S "getActivities") pAlpha = ⟨200, notFoundText⟩ :=
  by_place_not_found [] pAlpha (S "getActivities") (by decide) (by decide)

/-- C6: with no token configured the secret check always passes; with a token
configured it passes exactly when the header value equals the token, a
missing header short-circuits dispatch into a 401 "Unauthorized" response,
and a matching header makes the request behave exactly like one with the
check disabled. -/
theorem verify_secret_gate (cat : Catalog) (tok : Str) (h : Option Str) (tag : Str)
    (p : Params) (htok : tok ≠ []) :
    verify_secret [] h = true
      ∧ (verify_secret tok h = true ↔ h.getD [] = tok)
      ∧ fulfillment cat tok none tag p = ⟨401, S "Unauthorized"⟩
      ∧ fulfillment cat tok (some tok) tag p = fulfillment cat [] h tag p := by
  have hte : tok.isEmpty = false := List.isEmpty_eq_false.mpr htok
  refine ⟨rfl, ?_, ?_, ?_⟩
  · unfold verify_secret
    rw [if_neg (neTrue hte)]
    exact beq_iff_eq
  · have hv : verify_secret tok none = false := by
      unfold verify_secret
      rw [if_neg (neTrue hte)]
      exact beq_eq_false_iff_ne.mpr (fun e => htok e.symm)
    unfold fulfillment
    rw [hv, if_neg Bool.false_ne_true]
  · have h1 : verify_secret tok (some tok) = true := by
      unfold verify_secret
      by_cases he : tok.isEmpty = true
      · rw [if_pos he]
      · rw [if_neg he]
        exact beq_self_eq_true tok
    have h2 : verify_secret [] h = true := rfl
    unfold fulfillment
    rw [h1, h2]

/-- C6 witness: with token "abc123" a request with no header is rejected with
401 Unauthorized, and a request carrying the token dispatches exactly like an
unprotected one. -/
theorem verify_secret_gate_witness :
    fulfillment [] (S "abc123") none (S "getPlaceDetails") emptyParams
        = ⟨401, S "Unauthorized"⟩
      ∧ fulfillment [] (S "abc123") (some (S "abc123")) (S "getPlaceDetails") emptyParams
          = fulfillment [] [] none (S "getPlaceDetails") emptyParams := by
  have h := verify_secret_gate [] (S "abc123") none (S "getPlaceDetails") emptyParams
    (by decide)
  exact ⟨h.2.2.1, h.2.2.2⟩

/-- C10: `getActivities` on a found place with a non-empty activity query
matching no segment of the activities field renders the not-found sentinel of
the activity filter as a single bullet item under the "Activities in {name}:"
header. -/
theorem getActivities_no_match (cat : Catalog) (p : Params) (row : Row)
    (hk : normalize (firstNonEmpty p.place p.cx_entities_place) ≠ [])
    (hrow : lookupC cat (normalize (firstNonEmpty p.place p.cx_entities_place)) = some row)
    (hq : firstNonEmpty p.activity p.cx_entities_activity ≠ [])
    (hmiss : (((splitOnC ';' (pick row (fun r => r.activities) defaultInfo)).map pyStrip).filter
          (fun s => !s.isEmpty)).filter
        (fun ln => pyIn
          ((pyStrip (firstNonEmpty p.activity p.cx_entities_activity)).map lowerChar)
          (ln.map lowerChar)) = []) :
    fulfillment cat [] none (S "getActivities") p
      = ⟨200, S "Activities in "
          ++ pick row (fun r => r.name) (firstNonEmpty p.place p.cx_entities_place)
          ++ S ":\n• Requested activity not found for this place."⟩ := by
  rw [fulfill_activities]
  have hfound : byPlaceRequired cat (firstNonEmpty p.place p.cx_entities_place) = some row := by
    unfold byPlaceRequired
    rw [if_neg (neTrue (List.isEmpty_eq_false.mpr hk))]
    exact hrow
  rw [hfound]
  show activitiesResp row _ _ = _
  unfold activitiesResp
  have hfal : filter_activity_line (pick row (fun r => r.activities) defaultInfo)
      (firstNonEmpty p.activity p.cx_entities_activity) = notFoundActivity := by
    unfold filter_activity_line
    rw [if_neg (neTrue (List.isEmpty_eq_false.mpr hq))]
    simp only [hmiss]
    rfl
  rw [hfal]
  have hb : S ":\n" ++ bullets notFoundActivity
      = S ":\n• Requested activity not found for this place." := by decide
  simp only [List.append_assoc]
  rw [hb]

/-- C10 witness: querying "skiing" in a village offering "Fishing; Hiking"
yields the bulleted sentinel line. -/
theorem getActivities_no_match_witness :
    fulfillment [(S "greenhill", rowGreen)] [] none (S "getActivities") pGreen
      = ⟨200, S "Activities in Green Hill:\n• Requested activity not found for this place."⟩ :=
  (getActivities_no_match [(S "greenhill", rowGreen)] pGreen rowGreen (by decide) (by decide)
    (by decide) (by decide)).trans (by decide)

lemma splitOnC_no_sep {c : Char} {l : Str} (h : ∀ x ∈ l, x ≠ c) : splitOnC c l = [l] := by
  induction l with
  | nil => rfl
  | cons a t ih =>
    unfold splitOnC
    rw [if_neg (h a (by simp)), ih (fun x hx => h x (by simp [hx]))]

lemma splitOnC_append {c : Char} {a b : Str} (h : ∀ x ∈ a, x ≠ c) :
    splitOnC c (a ++ c :: b) = a :: splitOnC c b := by
  induction a with
  | nil =>
    show splitOnC c (c :: b) = [] :: splitOnC c b
    conv_lhs => rw [splitOnC]
    rw [if_pos rfl]
  | cons x t ih =>
    rw [List.cons_append]
    conv_lhs => rw [splitOnC]
    rw [if_neg (h x (by simp)), ih (fun y hy => h y (by simp [hy]))]

lemma splitOnC_join {c : Char} : ∀ (items : List Str), items ≠ [] →
    (∀ s ∈ items, ∀ x ∈ s, x ≠ c) → splitOnC c (pyJoin [c] items) = items := by
  intro items
  induction items with
  | nil =>
    intro h
    exact absurd rfl h
  | cons s t ih =>
    intro _ hclean
    cases t with
    | nil =>
      show splitOnC c s = [s]
      exact splitOnC_no_sep (hclean s (by simp))
    | cons y rest =>
      show splitOnC c (s ++ [c] ++ pyJoin [c] (y :: rest)) = s :: y :: rest
      rw [List.append_assoc, List.singleton_append,
        splitOnC_append (hclean s (by simp)),
        ih (by simp) (fun s2 hs2 => hclean s2 (by simp [hs2]))]

lemma recommendations_prompt (cat : Catalog) :
    recommendations cat [] []
      = ⟨200, S "Tell me a state or district to recommend places."⟩ := rfl

lemma recommendations_district_empty (cat : Catalog) (d s : Str) (hd : d ≠ [])
    (hpl : list_places_by cat (fun r => r.district) d = []) :
    recommendations cat d s = ⟨200, S "No places found for " ++ d ++ S "."⟩ := by
  unfold recommendations
  rw [List.isEmpty_eq_false.mpr hd]
  simp only [Bool.not_false]
  rw [if_pos trivial, hpl]
  rfl

lemma recommendations_district_some (cat : Catalog) (d s : Str) (hd : d ≠ [])
    (hpl : list_places_by cat (fun r => r.district) d ≠ []) :
    recommendations cat d s
      = ⟨200, S "Recommended places in " ++ d ++ S ":\n" ++
          pyJoin (S "\n") (((list_places_by cat (fun r => r.district) d).take 10).map
            (fun p => S "• " ++ renderOpt p))⟩ := by
  unfold recommendations
  rw [List.isEmpty_eq_false.mpr hd]
  simp only [Bool.not_false]
  rw [if_pos trivial, if_neg (neTrue (List.isEmpty_eq_false.mpr hpl))]

lemma recommendations_state_empty (cat : Catalog) (s : Str) (hs : s ≠ [])
    (hpl : list_places_by cat (fun r => r.state) s = []) :
    recommendations cat [] s = ⟨200, S "No places found for " ++ s ++ S "."⟩ := by
  unfold recommendations
  rw [if_neg (by decide)]
  rw [List.isEmpty_eq_false.mpr hs]
  simp only [Bool.not_false]
  rw [if_pos trivial, hpl]
  rfl

lemma recommendations_state_some (cat : Catalog) (s : Str) (hs : s ≠ [])
    (hpl : list_places_by cat (fun r => r.state) s ≠ []) :
    recommendations cat [] s
      = ⟨200, S "Recommended places in " ++ s ++ S ":\n" ++
          pyJoin (S "\n") (((list_places_by cat (fun r => r.state) s).take 10).map
            (fun p => S "• " ++ renderOpt p))⟩ := by
  unfold recommendations
  rw [if_neg (by decide)]
  rw [List.isEmpty_eq_false.mpr hs]
  simp only [Bool.not_false]
  rw [if_pos trivial, if_neg (neTrue (List.isEmpty_eq_false.mpr hpl))]

lemma bulletLineCount_resp (d : Str) (places : List (Option Str))
    (hd : ∀ ch ∈ d, ch ≠ '\n')
    (hp : ∀ o ∈ places.take 10, ∀ ch ∈ renderOpt o, ch ≠ '\n')
    (hlen : places.length = 12) :
    bulletLineCount (S "Recommended places in " ++ d ++ S ":\n" ++
      pyJoin (S "\n") ((places.take 10).map (fun p => S "• " ++ renderOpt p))) = 10 := by
  have hlen10 : (places.take 10).length = 10 := by
    rw [List.length_take, hlen]
    decide
  have hitems_len : ((places.take 10).map (fun p => S "• " ++ renderOpt p)).length = 10 := by
    rw [List.length_map, hlen10]
  have hitems_ne : ((places.take 10).map (fun p => S "• " ++ renderOpt p)) ≠ [] := by
    intro h0
    rw [h0] at hitems_len
    exact absurd hitems_len (by decide)
  have hitems_clean : ∀ s2 ∈ (places.take 10).map (fun p => S "• " ++ renderOpt p),
      ∀ x ∈ s2, x ≠ '\n' := by
    intro s2 hs2 x hx
    obtain ⟨o, ho, rfl⟩ := List.mem_map.mp hs2
    rcases List.mem_append.mp hx with hx | hx
    · exact (by decide : ∀ y ∈ S "• ", y ≠ '\n') x hx
    · exact hp o ho x hx
  have htext : S "Recommended places in " ++ d ++ S ":\n" ++
        pyJoin (S "\n") ((places.take 10).map (fun p => S "• " ++ renderOpt p))
      = ('R' :: (S "ecommended places in " ++ d ++ [':']))
        ++ '\n' :: pyJoin ['\n'] ((places.take 10).map (fun p => S "• " ++ renderOpt p)) := by
    rw [show S "Recommended places in " = 'R' :: S "ecommended places in " from rfl,
      show S ":\n" = [':', '\n'] from rfl, show S "\n" = ['\n'] from rfl]
    simp [List.append_assoc]
  have hheadclean : ∀ x ∈ 'R' :: (S "ecommended places in " ++ d ++ [':']), x ≠ '\n' := by
    intro x hx
    rcases List.mem_cons.mp hx with hx | hx
    · rw [hx]
      decide
    · rcases List.mem_append.mp hx with hx | hx
      · rcases List.mem_append.mp hx with hx | hx
        · exact (by decide : ∀ y ∈ S "ecommended places in ", y ≠ '\n') x hx
        · exact hd x hx
      · rw [List.mem_singleton.mp hx]
        decide
  unfold bulletLineCount
  rw [htext, splitOnC_append hheadclean,
    splitOnC_join _ hitems_ne hitems_clean, List.filter_cons,
    if_neg (by rw [List.head?_cons]; decide),
    List.filter_eq_self.mpr (fun s2 hs2 => by
      obtain ⟨o, ho, rfl⟩ := List.mem_map.mp hs2
      rfl)]
  exact hitems_len

/-- C4: `getRecommendations` resolves district before state, prompts when
neither is supplied, reports "No places found for {scope}." when no record
matches, renders the first at-most-10 candidates of the catalog order as
bullet lines, and with 12 matching records the response text has exactly 10
bullet lines. -/
theorem getRecommendations_spec (cat : Catalog) (p : Params) :
    (firstNonEmpty p.district p.cx_entities_district = [] →
      firstNonEmpty p.state p.cx_entities_state = [] →
      fulfillment cat [] none (S "getRecommendations") p
        = ⟨200, S "Tell me a state or district to recommend places."⟩)
    ∧ (firstNonEmpty p.district p.cx_entities_district ≠ [] →
        (list_places_by cat (fun r => r.district)
            (firstNonEmpty p.district p.cx_entities_district) = [] →
          fulfillment cat [] none (S "getRecommendations") p
            = ⟨200, S "No places found for "
                ++ firstNonEmpty p.district p.cx_entities_district ++ S "."⟩)
        ∧ (list_places_by cat (fun r => r.district)
              (firstNonEmpty p.district p.cx_entities_district) ≠ [] →
          fulfillment cat [] none (S "getRecommendations") p
            = ⟨200, S "Recommended places in "
                ++ firstNonEmpty p.district p.cx_entities_district ++ S ":\n"
                ++ pyJoin (S "\n") (((list_places_by cat (fun r => r.district)
                      (firstNonEmpty p.district p.cx_entities_district)).take 10).map
                    (fun o => S "• " ++ renderOpt o))⟩))
    ∧ (firstNonEmpty p.district p.cx_entities_district = [] →
        firstNonEmpty p.state p.cx_entities_state ≠ [] →
        (list_places_by cat (fun r => r.state)
            (firstNonEmpty p.state p.cx_entities_state) = [] →
          fulfillment cat [] none (S "getRecommendations") p
            = ⟨200, S "No places found for "
                ++ firstNonEmpty p.state p.cx_entities_state ++ S "."⟩)
        ∧ (list_places_by cat (fun r => r.state)
              (firstNonEmpty p.state p.cx_entities_state) ≠ [] →
          fulfillment cat [] none (S "getRecommendations") p
            = ⟨200, S "Recommended places in "
                ++ firstNonEmpty p.state p.cx_entities_state ++ S ":\n"
                ++ pyJoin (S "\n") (((list_places_by cat (fun r => r.state)
                      (firstNonEmpty p.state p.cx_entities_state)).take 10).map
                    (fun o => S "• " ++ renderOpt o))⟩))
    ∧ (firstNonEmpty p.district p.cx_entities_district ≠ [] →
        (list_places_by cat (fun r => r.district)
            (firstNonEmpty p.district p.cx_entities_district)).length = 12 →
        (∀ ch ∈ firstNonEmpty p.district p.cx_entities_district, ch ≠ '\n') →
        (∀ o ∈ (list_places_by cat (fun r => r.district)
            (firstNonEmpty p.district p.cx_entities_district)).take 10,
          ∀ ch ∈ renderOpt o, ch ≠ '\n') →
        bulletLineCount (fulfillment cat [] none (S "getRecommendations") p).text = 10) := by
  refine ⟨fun hd hs => ?_, fun hd => ⟨fun hpl => ?_, fun hpl => ?_⟩,
    fun hd hs => ⟨fun hpl => ?_, fun hpl => ?_⟩, fun hd hlen hc1 hc2 => ?_⟩
  · rw [fulfill_recommendations, hd, hs]
    exact recommendations_prompt cat
  · rw [fulfill_recommendations]
    exact recommendations_district_empty cat _ _ hd hpl
  · rw [fulfill_recommendations]
    exact recommendations_district_some cat _ _ hd hpl
  · rw [fulfill_recommendations, hd]
    exact recommendations_state_empty cat _ hs hpl
  · rw [fulfill_recommendations, hd]
    exact recommendations_state_some cat _ hs hpl
  · have hne : list_places_by cat (fun r => r.district)
        (firstNonEmpty p.district p.cx_entities_district) ≠ [] := by
      intro h0
      rw [h0] at hlen
      exact absurd hlen (by decide)
    rw [fulfill_recommendations, recommendations_district_some cat _ _ hd hne]
    exact bulletLineCount_resp _ _ hc1 hc2 hlen

/-- C4 witness: recommendations for district "Kullu" over a catalog with
twelve matching records produce exactly ten bullet lines. -/
theorem getRecommendations_spec_witness :
    bulletLineCount (fulfillment cat12 [] none (S "getRecommendations") p12).text = 10 :=
  (getRecommendations_spec cat12 p12).2.2.2 (by decide) (by decide) (by decide) (by decide)

/-- C1 counterexample: `bullets` does not return the default placeholder
"Information not available." unchanged — a semicolon-free string is one
non-empty segment, not zero, so it is rendered as a bulleted line. -/
theorem bullets_placeholder_counterexample :
    bullets defaultInfo ≠ defaultInfo := by
  decide

/-- C1 amended: `bullets` applied to the default placeholder returns the
placeholder prefixed with a single bullet marker, one marker in total;
only inputs with zero non-empty segments come back unchanged. -/
theorem bullets_placeholder_amended :
    bullets defaultInfo = S "• " ++ defaultInfo
      ∧ (bullets defaultInfo).count '•' = 1 := by
  decide

/-- C9: `bullets` realises the specified pipeline — split on `;`, trim,
discard empties, join the survivors as bullet lines, and return the input
unchanged (in particular `bullets "" = ""`) when no segment survives. -/
theorem bullets_matches_spec :
    (∀ t, bullets t = bulletsSpec t) ∧ bullets [] = [] := by
  refine ⟨fun t => ?_, rfl⟩
  unfold bullets bulletsSpec
  rw [filterMap_strip]
  by_cases h : ((splitOnC ';' t).map pyStrip).filter (fun s => !s.isEmpty) = []
  · simp [h]
  · simp [h, List.isEmpty_eq_false.mpr h]

/-- C5 counterexample: with the query " hiking " the code strips the query
before matching and returns "Hiking", while the claim as stated (query only
lower-cased) would find no matching segment and return the sentinel. -/
theorem filter_activity_line_claim_counterexample :
    filter_activity_line (S "Fishing; Hiking") (S " hiking ")
        ≠ filterActivityLineClaim (S "Fishing; Hiking") (S " hiking ")
      ∧ filter_activity_line (S "Fishing; Hiking") (S " hiking ") = S "Hiking"
      ∧ filterActivityLineClaim (S "Fishing; Hiking") (S " hiking ") = notFoundActivity := by
  decide

/-- C5 amended: `filter_activity_line` returns the text unchanged on an empty
query; otherwise it keeps exactly the trimmed, non-empty segments whose
lower-cased form contains the trimmed and lower-cased query, rejoined with
"; ", and returns the sentinel when no segment matches.  The two examples of
the claim hold as stated. -/
theorem filter_activity_line_amended_spec :
    (∀ t q, filter_activity_line t q = filterActivityLineAmended t q)
      ∧ filter_activity_line (S "Fishing; Bird watching") (S "bird") = S "Bird watching"
      ∧ filter_activity_line (S "Fishing; Hiking") (S "skiing") = notFoundActivity := by
  refine ⟨fun t q => ?_, by decide, by decide⟩
  unfold filter_activity_line filterActivityLineAmended
  rw [filterMap_strip]

example : normalize (S " EXAMPLE_Village ") = S "examplevillage" := by decide
example : bullets (S "a; b;; ") = S "• a\n• b" := by decide
example : bullets (S "") = S "" := by decide
example : filter_activity_line (S "Fishing; Bird watching") (S "bird") = S "Bird watching" := by decide

end Village
